import Mathlib

/-!
Shallow embedding of `src/main_escuelas_mx.py`, a Streamlit app that loads a
geospatial dataframe of Mexican schools and lets the user filter, map,
search, paginate and export it.  Dataframes are modelled as `List Record`
in dataset order, pandas missing values (`NaN`) as `none`, and the pieces
of Python/pandas semantics the script leans on (string truthiness,
`astype(str)` rendering `NaN` as `"nan"`, floor division, `str + list`
raising `TypeError`) are embedded explicitly.  Coordinates are rationals.
-/

namespace EscuelasMx

/-- One row of the dataframe.  Field names follow the source columns
(`CENTRO_DE_TRABAJO_FIELD = "name"` is the working-center code).  The
geometry column always carries a point, so `lat`/`lon` (`row.geometry.y` /
`row.geometry.x`) are total; the string columns may hold `NaN`, modelled
as `none`. -/
structure Record where
  name : Option String
  nombre_entidad : Option String
  nombre_municipio : Option String
  nombre_localidad : Option String
  nombre_de_centro_de_trabajo : Option String
  lat : ℚ
  lon : ℚ
deriving DecidableEq

/-- Python truthiness of an optional string: `None` and `""` are falsy
(`if admin1:`, `if admin2:`, `if search_term:` in the source). -/
def pyTruthyStr : Option String → Bool
  | none => false
  | some s => !(s == "")

/-- pandas `astype(str)` (and `str(...)`) on one cell: a missing value
(`NaN`) renders as the string `"nan"`, any other value is its own text. -/
def pyStr : Option String → String
  | none => "nan"
  | some s => s

/-- Lexicographic code-point comparison of character sequences, the order
Python `sorted` uses on strings. -/
def charListLE : List Char → List Char → Bool
  | [], _ => true
  | _ :: _, [] => false
  | c :: cs, d :: ds => if c = d then charListLE cs ds else decide (c < d)

/-- Python string comparison `s <= t`. -/
def strLE (s t : String) : Bool := charListLE s.toList t.toList

/-- Insert a string into a sorted list; building block for Python
`sorted`. -/
def insertSorted (s : String) : List String → List String
  | [] => [s]
  | t :: ts => if strLE s t then s :: t :: ts else t :: insertSorted s ts

/-- Python `sorted` on a list of strings, as insertion sort. -/
def sortStrings (l : List String) : List String := l.foldr insertSorted []

/-- Line 229, `sorted(gdf[DEPARTAMENTO_FIELD].dropna().unique().tolist())`:
the selectable state options. -/
def departamentos (gdf : List Record) : List String :=
  sortStrings (gdf.filterMap (fun r => r.nombre_entidad)).dedup

/-- Modelled from the spec: `st.selectbox(label, options, index=0)` (line
230) offers exactly `options` and initially returns the option at index 0;
with an empty option list it returns `None`.  The selection is always one
of `options`. -/
def selectbox_default (options : List String) : Option String := options.head?

/-- Lines 236–243: hierarchical filter.  With truthy `admin1` and truthy
`admin2` keep rows with `nombre_municipio == admin2` and
`nombre_entidad == admin1`; with only a truthy `admin1` keep rows with
`nombre_entidad == admin1`; otherwise the whole dataframe.  A pandas `==`
against a missing cell is `False`, which the `Option` equality mirrors. -/
def filtered_for_map_pre (gdf : List Record) (a1 a2 : Option String) : List Record :=
  if pyTruthyStr a1 then
    if pyTruthyStr a2 then
      gdf.filter (fun r => r.nombre_municipio == a2 && r.nombre_entidad == a1)
    else
      gdf.filter (fun r => r.nombre_entidad == a1)
  else
    gdf

/-- Lines 250–252: when the hierarchical result exceeds 10,000 rows it is
reassigned to `filtered_for_map.head(10000)` after a sidebar warning. -/
def filtered_for_map (gdf : List Record) (a1 a2 : Option String) : List Record :=
  let f := filtered_for_map_pre gdf a1 a2
  if 10000 < f.length then f.take 10000 else f

/-- The argument of the `sorted(...)` call on line 233: distinct
non-missing municipalities among the rows of the selected state, sorted. -/
def municipioOptions (gdf : List Record) (admin1 : Option String) : List String :=
  sortStrings ((gdf.filter (fun r => r.nombre_entidad == admin1)).filterMap
    (fun r => r.nombre_municipio)).dedup

/-- A dynamically typed Python value, enough to evaluate line 233. -/
inductive PyVal where
  | str : String → PyVal
  | list : List String → PyVal
deriving DecidableEq

/-- Python `+` on these values: defined on `str + str` and `list + list`;
mixing the two raises `TypeError`. -/
def pyAdd : PyVal → PyVal → Except String PyVal
  | PyVal.str a, PyVal.str b => Except.ok (PyVal.str (a ++ b))
  | PyVal.list a, PyVal.list b => Except.ok (PyVal.list (a ++ b))
  | PyVal.str _, PyVal.list _ =>
      Except.error "TypeError: can only concatenate str (not \"list\") to str"
  | PyVal.list _, PyVal.str _ =>
      Except.error "TypeError: can only concatenate list (not \"str\") to list"

/-- Line 233, `municipios = "" + sorted(...)`: under Python semantics this
is `str + list`. -/
def municipios (gdf : List Record) (admin1 : Option String) : Except String PyVal :=
  pyAdd (PyVal.str "") (PyVal.list (municipioOptions gdf admin1))

/-- The five display columns kept for the table (line 289), in order, each
cell coerced by `astype(str)` (line 302). -/
def displayStrings (r : Record) : List String :=
  [pyStr r.name, pyStr r.nombre_entidad, pyStr r.nombre_municipio,
    pyStr r.nombre_localidad, pyStr r.nombre_de_centro_de_trabajo]

/-- One run of the Unicode simple lowercase mapping: every codepoint
`first, first + stride, ..., last` lowers to itself plus `delta`. -/
structure FoldRun where
  first : Nat
  last : Nat
  stride : Nat
  delta : Int
deriving DecidableEq

/-- Part 1 of the non-identity entries of the Unicode simple lowercase
mapping (CPython's `_sre.unicode_tolower`), the folding `re.IGNORECASE`
applies to every pattern literal and every input character, compressed
into arithmetic runs. -/
def uniLowerRuns1 : List FoldRun := [
  ⟨65, 90, 1, 32⟩, ⟨192, 214, 1, 32⟩, ⟨216, 222, 1, 32⟩, ⟨256, 302, 2, 1⟩,
  ⟨304, 304, 1, -199⟩, ⟨306, 310, 2, 1⟩, ⟨313, 327, 2, 1⟩, ⟨330, 374, 2, 1⟩,
  ⟨376, 376, 1, -121⟩, ⟨377, 381, 2, 1⟩, ⟨385, 385, 1, 210⟩, ⟨386, 388, 2, 1⟩,
  ⟨390, 390, 1, 206⟩, ⟨391, 391, 1, 1⟩, ⟨393, 394, 1, 205⟩, ⟨395, 395, 1, 1⟩,
  ⟨398, 398, 1, 79⟩, ⟨399, 399, 1, 202⟩, ⟨400, 400, 1, 203⟩, ⟨401, 401, 1, 1⟩,
  ⟨403, 403, 1, 205⟩, ⟨404, 404, 1, 207⟩, ⟨406, 406, 1, 211⟩, ⟨407, 407, 1, 209⟩,
  ⟨408, 408, 1, 1⟩, ⟨412, 412, 1, 211⟩, ⟨413, 413, 1, 213⟩, ⟨415, 415, 1, 214⟩,
  ⟨416, 420, 2, 1⟩, ⟨422, 422, 1, 218⟩, ⟨423, 423, 1, 1⟩, ⟨425, 425, 1, 218⟩,
  ⟨428, 428, 1, 1⟩, ⟨430, 430, 1, 218⟩, ⟨431, 431, 1, 1⟩, ⟨433, 434, 1, 217⟩,
  ⟨435, 437, 2, 1⟩, ⟨439, 439, 1, 219⟩, ⟨440, 444, 4, 1⟩, ⟨452, 452, 1, 2⟩,
  ⟨453, 453, 1, 1⟩, ⟨455, 455, 1, 2⟩, ⟨456, 456, 1, 1⟩, ⟨458, 458, 1, 2⟩,
  ⟨459, 475, 2, 1⟩]

/-- Part 2 of the non-identity entries of the Unicode simple lowercase
mapping (CPython's `_sre.unicode_tolower`), the folding `re.IGNORECASE`
applies to every pattern literal and every input character, compressed
into arithmetic runs. -/
def uniLowerRuns2 : List FoldRun := [
  ⟨478, 494, 2, 1⟩, ⟨497, 497, 1, 2⟩, ⟨498, 500, 2, 1⟩, ⟨502, 502, 1, -97⟩,
  ⟨503, 503, 1, -56⟩, ⟨504, 542, 2, 1⟩, ⟨544, 544, 1, -130⟩, ⟨546, 562, 2, 1⟩,
  ⟨570, 570, 1, 10795⟩, ⟨571, 571, 1, 1⟩, ⟨573, 573, 1, -163⟩, ⟨574, 574, 1, 10792⟩,
  ⟨577, 577, 1, 1⟩, ⟨579, 579, 1, -195⟩, ⟨580, 580, 1, 69⟩, ⟨581, 581, 1, 71⟩,
  ⟨582, 590, 2, 1⟩, ⟨880, 882, 2, 1⟩, ⟨886, 886, 1, 1⟩, ⟨895, 895, 1, 116⟩,
  ⟨902, 902, 1, 38⟩, ⟨904, 906, 1, 37⟩, ⟨908, 908, 1, 64⟩, ⟨910, 911, 1, 63⟩,
  ⟨913, 929, 1, 32⟩, ⟨931, 939, 1, 32⟩, ⟨975, 975, 1, 8⟩, ⟨984, 1006, 2, 1⟩,
  ⟨1012, 1012, 1, -60⟩, ⟨1015, 1015, 1, 1⟩, ⟨1017, 1017, 1, -7⟩, ⟨1018, 1018, 1, 1⟩,
  ⟨1021, 1023, 1, -130⟩, ⟨1024, 1039, 1, 80⟩, ⟨1040, 1071, 1, 32⟩, ⟨1120, 1152, 2, 1⟩,
  ⟨1162, 1214, 2, 1⟩, ⟨1216, 1216, 1, 15⟩, ⟨1217, 1229, 2, 1⟩, ⟨1232, 1326, 2, 1⟩,
  ⟨1329, 1366, 1, 48⟩, ⟨4256, 4293, 1, 7264⟩, ⟨4295, 4301, 6, 7264⟩, ⟨5024, 5103, 1, 38864⟩,
  ⟨5104, 5109, 1, 8⟩]

/-- Part 3 of the non-identity entries of the Unicode simple lowercase
mapping (CPython's `_sre.unicode_tolower`), the folding `re.IGNORECASE`
applies to every pattern literal and every input character, compressed
into arithmetic runs. -/
def uniLowerRuns3 : List FoldRun := [
  ⟨7312, 7354, 1, -3008⟩, ⟨7357, 7359, 1, -3008⟩, ⟨7680, 7828, 2, 1⟩, ⟨7838, 7838, 1, -7615⟩,
  ⟨7840, 7934, 2, 1⟩, ⟨7944, 7951, 1, -8⟩, ⟨7960, 7965, 1, -8⟩, ⟨7976, 7983, 1, -8⟩,
  ⟨7992, 7999, 1, -8⟩, ⟨8008, 8013, 1, -8⟩, ⟨8025, 8031, 2, -8⟩, ⟨8040, 8047, 1, -8⟩,
  ⟨8072, 8079, 1, -8⟩, ⟨8088, 8095, 1, -8⟩, ⟨8104, 8111, 1, -8⟩, ⟨8120, 8121, 1, -8⟩,
  ⟨8122, 8123, 1, -74⟩, ⟨8124, 8124, 1, -9⟩, ⟨8136, 8139, 1, -86⟩, ⟨8140, 8140, 1, -9⟩,
  ⟨8152, 8153, 1, -8⟩, ⟨8154, 8155, 1, -100⟩, ⟨8168, 8169, 1, -8⟩, ⟨8170, 8171, 1, -112⟩,
  ⟨8172, 8172, 1, -7⟩, ⟨8184, 8185, 1, -128⟩, ⟨8186, 8187, 1, -126⟩, ⟨8188, 8188, 1, -9⟩,
  ⟨8486, 8486, 1, -7517⟩, ⟨8490, 8490, 1, -8383⟩, ⟨8491, 8491, 1, -8262⟩, ⟨8498, 8498, 1, 28⟩,
  ⟨8544, 8559, 1, 16⟩, ⟨8579, 8579, 1, 1⟩, ⟨9398, 9423, 1, 26⟩, ⟨11264, 11311, 1, 48⟩,
  ⟨11360, 11360, 1, 1⟩, ⟨11362, 11362, 1, -10743⟩, ⟨11363, 11363, 1, -3814⟩, ⟨11364, 11364, 1, -10727⟩,
  ⟨11367, 11371, 2, 1⟩, ⟨11373, 11373, 1, -10780⟩, ⟨11374, 11374, 1, -10749⟩, ⟨11375, 11375, 1, -10783⟩,
  ⟨11376, 11376, 1, -10782⟩]

/-- Part 4 of the non-identity entries of the Unicode simple lowercase
mapping (CPython's `_sre.unicode_tolower`), the folding `re.IGNORECASE`
applies to every pattern literal and every input character, compressed
into arithmetic runs. -/
def uniLowerRuns4 : List FoldRun := [
  ⟨11378, 11381, 3, 1⟩, ⟨11390, 11391, 1, -10815⟩, ⟨11392, 11490, 2, 1⟩, ⟨11499, 11501, 2, 1⟩,
  ⟨11506, 42560, 31054, 1⟩, ⟨42562, 42604, 2, 1⟩, ⟨42624, 42650, 2, 1⟩, ⟨42786, 42798, 2, 1⟩,
  ⟨42802, 42862, 2, 1⟩, ⟨42873, 42875, 2, 1⟩, ⟨42877, 42877, 1, -35332⟩, ⟨42878, 42886, 2, 1⟩,
  ⟨42891, 42891, 1, 1⟩, ⟨42893, 42893, 1, -42280⟩, ⟨42896, 42898, 2, 1⟩, ⟨42902, 42920, 2, 1⟩,
  ⟨42922, 42922, 1, -42308⟩, ⟨42923, 42923, 1, -42319⟩, ⟨42924, 42924, 1, -42315⟩, ⟨42925, 42925, 1, -42305⟩,
  ⟨42926, 42926, 1, -42308⟩, ⟨42928, 42928, 1, -42258⟩, ⟨42929, 42929, 1, -42282⟩, ⟨42930, 42930, 1, -42261⟩,
  ⟨42931, 42931, 1, 928⟩, ⟨42932, 42946, 2, 1⟩, ⟨42948, 42948, 1, -48⟩, ⟨42949, 42949, 1, -42307⟩,
  ⟨42950, 42950, 1, -35384⟩, ⟨42951, 42953, 2, 1⟩, ⟨42960, 42966, 6, 1⟩, ⟨42968, 42997, 29, 1⟩,
  ⟨65313, 65338, 1, 32⟩, ⟨66560, 66599, 1, 40⟩, ⟨66736, 66771, 1, 40⟩, ⟨66928, 66938, 1, 39⟩,
  ⟨66940, 66954, 1, 39⟩, ⟨66956, 66962, 1, 39⟩, ⟨66964, 66965, 1, 39⟩, ⟨68736, 68786, 1, 64⟩,
  ⟨71840, 71871, 1, 32⟩, ⟨93760, 93791, 1, 32⟩, ⟨125184, 125217, 1, 34⟩]

/-- All runs of the Unicode simple lowercase mapping. -/
def uniLowerRuns : List FoldRun := uniLowerRuns1 ++ uniLowerRuns2 ++ uniLowerRuns3 ++ uniLowerRuns4

/-- `_sre.unicode_tolower`: the Unicode simple lowercase of a codepoint. -/
def uniLower (n : Nat) : Nat :=
  match uniLowerRuns.find? (fun r =>
      decide (r.first ≤ n ∧ n ≤ r.last ∧ (n - r.first) % r.stride = 0)) with
  | some r => (r.delta + (n : Int)).toNat
  | none => n

/-- CPython's `re._casefix._EXTRA_CASES`: lowered codepoints that
`re.IGNORECASE` additionally identifies beyond simple lowercasing
(dotless i, long s, micro sign, Greek symbol letters, ...). -/
def uniExtraCases : List (Nat × List Nat) := [
  (105, [305]), (115, [383]), (181, [956]),
  (305, [105]), (383, [115]), (837, [953, 8126]),
  (912, [8147]), (944, [8163]), (946, [976]),
  (949, [1013]), (952, [977]), (953, [837, 8126]),
  (954, [1008]), (956, [181]), (960, [982]),
  (961, [1009]), (962, [963]), (963, [962]),
  (966, [981]), (976, [946]), (977, [952]),
  (981, [966]), (982, [960]), (1008, [954]),
  (1009, [961]), (1013, [949]), (1074, [7296]),
  (1076, [7297]), (1086, [7298]), (1089, [7299]),
  (1090, [7300, 7301]), (1098, [7302]), (1123, [7303]),
  (7296, [1074]), (7297, [1076]), (7298, [1086]),
  (7299, [1089]), (7300, [1090, 7301]), (7301, [1090, 7300]),
  (7302, [1098]), (7303, [1123]), (7304, [42571]),
  (7777, [7835]), (7835, [7777]), (8126, [837, 953]),
  (8147, [912]), (8163, [944]), (42571, [7304]),
  (64261, [64262]), (64262, [64261])]

/-- One character of `re.IGNORECASE` literal matching: pattern character
`p` matches text character `t` iff both simple-lowercase to the same
codepoint, or the lowered text codepoint is one of the lowered pattern
codepoint's extra case variants. -/
def pyCharMatch (p t : Char) : Bool :=
  let lp := uniLower p.toNat
  let lt := uniLower t.toNat
  lt == lp || ((uniExtraCases.lookup lp).getD []).contains lt

/-- Bool test that the pattern matches at the start of `hay`, character by
character under `re.IGNORECASE`. -/
def charsStartWith : List Char → List Char → Bool
  | [], _ => true
  | _ :: _, [] => false
  | p :: ps, h :: hs => pyCharMatch p h && charsStartWith ps hs

/-- Bool test that the pattern matches contiguously somewhere inside
`hay`. -/
def charsOccur (pat : List Char) : List Char → Bool
  | [] => charsStartWith pat []
  | h :: hs => charsStartWith pat (h :: hs) || charsOccur pat hs

/-- One cell of the mask on line 302,
`x.str.contains(search_term, case=False, na=False)`, for terms free of
regex metacharacters: pandas compiles the term with `re.IGNORECASE`, whose
Unicode-aware case folding `pyCharMatch` reproduces, and on a literal term
the regex search is exactly this case-insensitive substring containment.
(`na=False` is moot: `astype(str)` has already replaced every `NaN` by
`"nan"`.) -/
def strContainsCI (hay pat : String) : Bool :=
  charsOccur pat.toList hay.toList

/-- The metacharacters of Python regular expressions. -/
def regexMeta : List Char :=
  ['.', '^', '$', '*', '+', '?', Char.ofNat 123, Char.ofNat 125, '[', ']',
    '\\', '|', '(', ')']

/-- A search term that contains no regex metacharacter, i.e. one on which
`str.contains` degenerates to substring search. -/
def regexLiteral (s : String) : Bool := s.toList.all (fun c => !(regexMeta.contains c))

/-- Line 302: one row matches when any display column, coerced to text,
contains the search term (the `.any(axis=1)` of the per-column masks). -/
def rowMatches (r : Record) (term : String) : Bool :=
  (displayStrings r).any (fun s => strContainsCI s term)

/-- Lines 301–303: a truthy search term keeps exactly the mask-matching
rows; an empty term leaves the table unchanged. -/
def apply_search (t : List Record) (term : String) : List Record :=
  if term = "" then t else t.filter (fun r => rowMatches r term)

/-- Line 279 together with 291–303: the table dataframe is a copy of the
(capped) map result restricted to the display columns, then
search-filtered. -/
def table_df (gdf : List Record) (a1 a2 : Option String) (term : String) : List Record :=
  apply_search (filtered_for_map gdf a1 a2) term

/-- The `Rows per page` options offered on line 310. -/
def pageSizes : List Nat := [50, 100, 200, 500]

/-- Line 314: `max(1, (len(table_df) - 1) // rows_per_page + 1)`, with
Python floor division (`Int.fdiv`). -/
def total_pages (n p : Nat) : Int :=
  max 1 (((n : Int) - 1).fdiv (p : Int) + 1)

/-- Modelled from the spec: `st.number_input(..., min_value=1,
max_value=total_pages, value=1, step=1)` (lines 315–321) never yields an
out-of-range value; a request outside the range is corrected to the
nearest bound rather than failing. -/
def number_input_val (req lo hi : Int) : Int := max lo (min hi req)

/-- Lines 323–325: `start_idx = (page - 1) * rows_per_page`,
`end_idx = min(start_idx + rows_per_page, len(table_df))`, and
`paginated_df = table_df.iloc[start_idx:end_idx]`. -/
def paginated_df (R : List Record) (p : Nat) (req : Int) : List Record :=
  let pg := number_input_val req 1 (total_pages R.length p)
  let start := (pg - 1).toNat * p
  let stop := min (start + p) R.length
  (R.drop start).take (stop - start)

/-- The slice the spec promises for page `j`:
`[ (pageNumber-1)*pageSize, min(pageNumber*pageSize, len(resultSet)) )`. -/
def pageSliceSpec (R : List Record) (p j : Nat) : List Record :=
  (R.take (min (j * p) R.length)).drop ((j - 1) * p)

/-- Lines 260–264: the map centre is the mean of the (capped) filtered
coordinates when some rows remain, and the fixed default
`(23.6345, -102.5528)` otherwise. -/
def centerOf (f : List Record) : ℚ × ℚ :=
  if f.isEmpty then ((23.6345 : ℚ), (-102.5528 : ℚ))
  else ((f.map Record.lat).sum / (f.length : ℚ), (f.map Record.lon).sum / (f.length : ℚ))

/-- `html.escape` on one character. -/
def htmlEscapeChar (c : Char) : String :=
  if c = '&' then "&amp;"
  else if c = '<' then "&lt;"
  else if c = '>' then "&gt;"
  else if c = Char.ofNat 34 then "&quot;"
  else if c = Char.ofNat 39 then "&#x27;"
  else String.singleton c

/-- `html.escape` as used on lines 173–174. -/
def htmlEscape (s : String) : String := String.join (s.toList.map htmlEscapeChar)

/-- The renderable artifact `create_map` builds (lines 111–205), as data:
the centre it was given, the copy label embedded in its script, and one
`(code, school name)` marker per row, both escaped.  `row.get` finds the
columns, so the `"N/A"` / `"Sin nombre"` defaults are not reached and
`str(...)` renders a missing cell as `"nan"`. -/
structure MapArtifact where
  center_lat : ℚ
  center_lon : ℚ
  copy_label : String
  markers : List (String × String)
deriving DecidableEq

/-- Lines 111–205: build the folium map artifact from the rows and centre. -/
def create_map (gdf : List Record) (center_lat center_lon : ℚ) (label : String) :
    MapArtifact :=
  { center_lat := center_lat
    center_lon := center_lon
    copy_label := label
    markers := gdf.map (fun r =>
      (htmlEscape (pyStr r.name), htmlEscape (pyStr r.nombre_de_centro_de_trabajo))) }

/-- A `st.cache_data` cache for `create_map`.  The dataframe parameter is
written `_gdf` (line 112), and streamlit excludes parameters whose name
starts with an underscore from the cache key, so the key is only
`(center_lat, center_lon, click_to_copy_text)`. -/
abbrev MapCache := List ((ℚ × ℚ × String) × MapArtifact)

/-- Look a key up in the memo table. -/
def cacheLookup (c : MapCache) (k : ℚ × ℚ × String) : Option MapArtifact :=
  match c.find? (fun kv => decide (kv.1 = k)) with
  | some kv => some kv.2
  | none => none

/-- One `create_map(filtered_for_map, center_lat, center_lon, label)` call
under `st.cache_data` (lines 111 and 269): on a key hit the cached
artifact is returned and the `_gdf` argument is never consulted; on a miss
the map is built from the given rows and memoised under the key. -/
def create_map_cached (c : MapCache) (gdf : List Record) (la lo : ℚ) (label : String) :
    MapArtifact × MapCache :=
  match cacheLookup c (la, lo, label) with
  | some m => (m, c)
  | none =>
    let m := create_map gdf la lo label
    (m, ((la, lo, label), m) :: c)

/-- A CSV cell needs quoting when it holds the delimiter, a quote or a
line break (`csv.QUOTE_MINIMAL`, the `to_csv` default). -/
def needsQuote (s : String) : Bool :=
  s.toList.any (fun c =>
    c == ',' || c == Char.ofNat 34 || c == Char.ofNat 10 || c == Char.ofNat 13)

/-- One CSV field: embedded quotes are doubled and the field wrapped in
quotes when quoting is needed. -/
def csvField (s : String) : String :=
  if needsQuote s then
    "\"" ++ String.join (s.toList.map (fun c =>
      if c = Char.ofNat 34 then "\"\"" else String.singleton c)) ++ "\""
  else s

/-- One CSV line. -/
def csvLine (cells : List String) : String :=
  String.intercalate "," (cells.map csvField) ++ "\n"

/-- `DataFrame.to_csv(index=False)`: a header line of the column labels
followed by one line per row. -/
def to_csv (headers : List String) (rows : List (List String)) : String :=
  csvLine headers ++ String.join (rows.map csvLine)

/-- Line 339: the "download filtered" payload built from the current
table. -/
def csv_filtered (headers : List String) (gdf : List Record) (a1 a2 : Option String)
    (term : String) : String :=
  to_csv headers ((table_df gdf a1 a2 term).map displayStrings)

/-- A concrete record of state `"Oaxaca"`, used in scenarios. -/
def rOax : Record :=
  { name := some "20DPR0001K", nombre_entidad := some "Oaxaca",
    nombre_municipio := some "Oaxaca de Juarez", nombre_localidad := some "Centro",
    nombre_de_centro_de_trabajo := some "Escuela Primaria", lat := 17, lon := -96 }

/-- A record with accented Spanish text, as in the real dataset. -/
def rAcc : Record :=
  { name := some "16DPR0100K", nombre_entidad := some "Michoacán",
    nombre_municipio := some "Oaxaca de Juárez", nombre_localidad := some "Centro",
    nombre_de_centro_de_trabajo := some "Escuela México", lat := 19, lon := -101 }

/-- A second concrete record, of state `"Puebla"`. -/
def rPue : Record :=
  { name := some "21DPR0002L", nombre_entidad := some "Puebla",
    nombre_municipio := some "Puebla", nombre_localidad := some "Centro",
    nombre_de_centro_de_trabajo := some "Escuela Secundaria", lat := 19, lon := -98 }

/-- 12,500 pairwise distinct records of state `"Oaxaca"` (distinct
latitudes), the spec's truncation scenario. -/
def bigD : List Record :=
  (List.range 12500).map (fun i : Nat => { rOax with lat := (i : ℚ) })

/-- A record whose five display columns are all missing. -/
def rMissing : Record :=
  { name := none, nombre_entidad := none, nombre_municipio := none,
    nombre_localidad := none, nombre_de_centro_de_trabajo := none, lat := 0, lon := 0 }

/-- A record whose state value is the empty string: non-missing, yet falsy
under `if admin1:`. -/
def rBlankState : Record := { rOax with nombre_entidad := some "" }

/-- A two-state dataset whose alphabetically first state value is `""`. -/
def dBlank : List Record := [rBlankState, rOax]

/-- Membership is invariant under `insertSorted`. -/
theorem mem_insertSorted {x s : String} {l : List String} :
    x ∈ insertSorted s l ↔ x = s ∨ x ∈ l := by
  induction l with
  | nil => simp [insertSorted]
  | cons t ts ih =>
    by_cases h : strLE s t = true
    · simp [insertSorted, h]
    · simp [insertSorted, h, ih]
      tauto

/-- Membership is invariant under `sortStrings`. -/
theorem mem_sortStrings {x : String} {l : List String} :
    x ∈ sortStrings l ↔ x ∈ l := by
  induction l with
  | nil => simp [sortStrings]
  | cons t ts ih =>
    show x ∈ insertSorted t (sortStrings ts) ↔ _
    rw [mem_insertSorted, ih]
    simp

/-- The hierarchical filter with a truthy state and no municipality is the
plain state filter. -/
theorem filtered_for_map_pre_state (gdf : List Record) (s : String) (hs : s ≠ "") :
    filtered_for_map_pre gdf (some s) none
      = gdf.filter (fun r => r.nombre_entidad == some s) := by
  have hb : (s == "") = false := by simpa using hs
  simp [filtered_for_map_pre, pyTruthyStr, hb]

/-- The uncapped hierarchical result on the 12,500-record scenario is the
whole dataset. -/
theorem filtered_for_map_pre_bigD :
    filtered_for_map_pre bigD (some "Oaxaca") none = bigD := by
  rw [filtered_for_map_pre_state bigD "Oaxaca" (by decide)]
  apply List.filter_eq_self.mpr
  intro r hr
  simp only [bigD, List.mem_map] at hr
  obtain ⟨i, _, rfl⟩ := hr
  rfl

/-- Python `(-1) // p` is `-1` for every positive `p`. -/
theorem fdiv_neg_one (q : Nat) : (-1 : Int).fdiv ((q + 1 : Nat) : Int) = -1 := by
  show Int.negSucc (0 / (q + 1)) = -1
  rw [Nat.zero_div]
  rfl

/-- Line 314 computes `max(1, ceil(n / p))` for every positive page size. -/
theorem total_pages_formula (n p : Nat) (hp : 0 < p) :
    total_pages n p = ((max 1 ((n + p - 1) / p) : Nat) : Int) := by
  unfold total_pages
  rcases Nat.eq_zero_or_pos n with hn | hn
  · subst hn
    obtain ⟨q, rfl⟩ : ∃ q, p = q + 1 := ⟨p - 1, by omega⟩
    have h01 : ((0 : Nat) : Int) - 1 = -1 := by norm_num
    rw [h01, fdiv_neg_one q]
    have h0 : (0 + (q + 1) - 1) / (q + 1) = 0 := Nat.div_eq_of_lt (by omega)
    rw [h0]
    simp
  · obtain ⟨m, rfl⟩ : ∃ m, n = m + 1 := ⟨n - 1, by omega⟩
    have h1 : ((m + 1 : Nat) : Int) - 1 = (m : Int) := by push_cast; ring
    rw [h1]
    have hb : (0 : Int) ≤ (p : Int) := by positivity
    rw [Int.fdiv_eq_ediv _ hb, ← Int.ofNat_ediv]
    have h2 : (m + 1 + p - 1) / p = m / p + 1 := by
      have hm : m + 1 + p - 1 = m + p := by omega
      rw [hm, Nat.add_div_right m hp]
    rw [h2]
    generalize m / p = k
    have h3 : max 1 (k + 1) = k + 1 := by omega
    rw [h3]
    have h4 : max (1 : Int) ((k : Int) + 1) = (k : Int) + 1 := max_eq_right (by omega)
    rw [h4]
    push_cast
    ring

/-- Every allowed page size is positive. -/
theorem pageSizes_pos {p : Nat} (hp : p ∈ pageSizes) : 0 < p := by
  simp [pageSizes] at hp
  rcases hp with h | h | h | h <;> omega

/-- C7: computing the municipality dropdown options on line 233 evaluates
`"" + sorted(...)`, a Python `str + list`, which raises `TypeError` for
every dataset and selected state instead of producing the sorted distinct
municipality list. -/
theorem municipios_type_error (gdf : List Record) (admin1 : Option String) :
    municipios gdf admin1 =
      Except.error "TypeError: can only concatenate str (not \"list\") to str" := rfl

/-- C10: the `st.cache_data` key of `create_map` excludes the
underscore-prefixed dataframe parameter, so a second invocation with the
same centre coordinates and copy label returns the first invocation's
cached artifact whatever record set it is given: the rendered map is a
function of `(center_lat, center_lon, label)` only, not of the records. -/
theorem create_map_cache_ignores_records (c : MapCache) (g1 g2 : List Record)
    (la lo : ℚ) (label : String) :
    (create_map_cached ((create_map_cached c g1 la lo label).2) g2 la lo label).1
      = (create_map_cached c g1 la lo label).1 := by
  unfold create_map_cached
  cases h : cacheLookup c (la, lo, label) with
  | some m => simp [h]
  | none =>
    simp only [h]
    have h2 : cacheLookup (((la, lo, label), create_map g1 la lo label) :: c)
        (la, lo, label) = some (create_map g1 la lo label) := by
      unfold cacheLookup
      rw [List.find?_cons_of_pos _ (by simp)]
    simp [h2]

/-- C1 (counterexample): on the spec's own scenario of 12,500 records in
one state, the table path starts from only 10,000 records, and a record
passing the state filter is absent from the table. -/
theorem map_cap_changes_table_records :
    (filtered_for_map_pre bigD (some "Oaxaca") none).length = 12500
    ∧ (table_df bigD (some "Oaxaca") none "").length = 10000
    ∧ ∃ r, r ∈ filtered_for_map_pre bigD (some "Oaxaca") none
        ∧ r ∉ table_df bigD (some "Oaxaca") none "" := by
  have hlen : bigD.length = 12500 := by simp [bigD]
  have htab : table_df bigD (some "Oaxaca") none ""
      = (List.range 10000).map (fun i : Nat => { rOax with lat := (i : ℚ) }) := by
    unfold table_df filtered_for_map
    rw [filtered_for_map_pre_bigD]
    rw [if_pos (by rw [hlen]; omega)]
    have htake : bigD.take 10000
        = (List.range 10000).map (fun i : Nat => { rOax with lat := (i : ℚ) }) := by
      rw [bigD, ← List.map_take, List.take_range]
      norm_num
    rw [htake]
    simp [apply_search]
  refine ⟨by rw [filtered_for_map_pre_bigD, hlen], by rw [htab]; simp, ?_⟩
  refine ⟨{ rOax with lat := (12000 : ℚ) }, ?_, ?_⟩
  · rw [filtered_for_map_pre_bigD]
    simp only [bigD, List.mem_map]
    exact ⟨12000, by simp, by norm_num⟩
  · rw [htab]
    intro hmem
    simp only [List.mem_map, List.mem_range] at hmem
    obtain ⟨i, hi, heq⟩ := hmem
    have hlat : (i : ℚ) = (12000 : ℚ) := congrArg Record.lat heq
    have : i = 12000 := by exact_mod_cast hlat
    omega

/-- C1 (amended): the record set used by the table and export path is the
capped map-path set: exactly the first `min(len, 10000)` records passing
the state/municipality filter, so beyond 10,000 records the map cap does
change which records the table path considers filtered. -/
theorem table_path_uses_capped_set (gdf : List Record) (a1 a2 : Option String)
    (term : String) :
    table_df gdf a1 a2 term
      = apply_search ((filtered_for_map_pre gdf a1 a2).take 10000) term := by
  simp only [table_df, filtered_for_map]
  by_cases h : 10000 < (filtered_for_map_pre gdf a1 a2).length
  · rw [if_pos h]
  · rw [if_neg h, List.take_of_length_le (by omega)]

/-- C6: filtering with a selected (truthy) state, no municipality and an
empty search term yields a sub-list of the dataset holding all and only
the records whose state equals the selection, and the empty search term
leaves it unchanged. -/
theorem state_filter_exact (gdf : List Record) (s : String) (hs : s ≠ "") :
    List.Sublist (filtered_for_map_pre gdf (some s) none) gdf
    ∧ (∀ r ∈ filtered_for_map_pre gdf (some s) none, r.nombre_entidad = some s)
    ∧ (∀ r ∈ gdf, r.nombre_entidad = some s → r ∈ filtered_for_map_pre gdf (some s) none)
    ∧ apply_search (filtered_for_map_pre gdf (some s) none) ""
        = filtered_for_map_pre gdf (some s) none := by
  have h2 := filtered_for_map_pre_state gdf s hs
  refine ⟨?_, ?_, ?_, ?_⟩
  · rw [h2]; exact List.filter_sublist gdf
  · intro r hr
    rw [h2] at hr
    have := (List.mem_filter.mp hr).2
    simpa using this
  · intro r hr he
    rw [h2]
    exact List.mem_filter.mpr ⟨hr, by simp [he]⟩
  · simp [apply_search]

/-- C6 witness at a concrete two-state dataset. -/
theorem state_filter_exact_witness :
    ("Oaxaca" ≠ "")
    ∧ (List.Sublist (filtered_for_map_pre [rOax, rPue] (some "Oaxaca") none) [rOax, rPue]
      ∧ (∀ r ∈ filtered_for_map_pre [rOax, rPue] (some "Oaxaca") none,
          r.nombre_entidad = some "Oaxaca")
      ∧ (∀ r ∈ [rOax, rPue], r.nombre_entidad = some "Oaxaca" →
          r ∈ filtered_for_map_pre [rOax, rPue] (some "Oaxaca") none)
      ∧ apply_search (filtered_for_map_pre [rOax, rPue] (some "Oaxaca") none) ""
          = filtered_for_map_pre [rOax, rPue] (some "Oaxaca") none) :=
  ⟨by decide, state_filter_exact [rOax, rPue] "Oaxaca" (by decide)⟩

/-- Taking `min (a + p) (length l) - a` elements of `l.drop a` is taking
`p` of them. -/
theorem drop_take_min {α : Type} (l : List α) (a p : Nat) :
    (l.drop a).take (min (a + p) l.length - a) = (l.drop a).take p := by
  rw [List.take_eq_take]
  simp only [List.length_drop]
  omega

/-- Concatenating the `p`-chunks of `l` for `T` chunks yields the first
`T * p` elements of `l`. -/
theorem flatten_chunks {α : Type} (l : List α) (p : Nat) :
    ∀ T, (((List.range T).map (fun k => (l.drop (k * p)).take p)).flatten) = l.take (T * p)
  | 0 => by simp
  | T + 1 => by
    rw [List.range_succ, List.map_append, List.flatten_append, flatten_chunks l p T]
    simp only [List.map_cons, List.map_nil, List.flatten_cons, List.flatten_nil,
      List.append_nil]
    rw [← List.take_add]
    congr 1
    ring

/-- C4: pagination first clamps the requested page number into
`[1, totalPages]` (out-of-range requests are corrected, never errors) and
then returns exactly the spec slice
`[ (page-1)*pageSize, min(page*pageSize, len) )` of the ResultSet, in
order. -/
theorem paginate_clamped_slice (R : List Record) (p : Nat) (req : Int)
    (hp : p ∈ pageSizes) :
    (1 ≤ number_input_val req 1 (total_pages R.length p)
      ∧ number_input_val req 1 (total_pages R.length p) ≤ total_pages R.length p)
    ∧ paginated_df R p req
        = pageSliceSpec R p (number_input_val req 1 (total_pages R.length p)).toNat := by
  have hp0 : 0 < p := pageSizes_pos hp
  have htp : 1 ≤ total_pages R.length p := le_max_left _ _
  have h1 : 1 ≤ number_input_val req 1 (total_pages R.length p) := le_max_left _ _
  have h2 : number_input_val req 1 (total_pages R.length p) ≤ total_pages R.length p := by
    unfold number_input_val
    omega
  refine ⟨⟨h1, h2⟩, ?_⟩
  simp only [paginated_df, pageSliceSpec]
  set pg := number_input_val req 1 (total_pages R.length p) with hpg
  have hj : (pg - 1).toNat = pg.toNat - 1 := by omega
  rw [hj, List.drop_take]
  have hmul : (pg.toNat - 1) * p + p = pg.toNat * p := by
    obtain ⟨k, hk⟩ : ∃ k, pg.toNat = k + 1 := ⟨pg.toNat - 1, by omega⟩
    rw [hk]
    simp only [Nat.add_sub_cancel]
    ring
  generalize hA : (pg.toNat - 1) * p = A at hmul ⊢
  generalize hB : pg.toNat * p = B at hmul ⊢
  congr 1
  omega

/-- C4 witness at the spec scenario: 250 records, page size 100, requested
page 5 (clamped to 3). -/
theorem paginate_clamped_slice_witness :
    (100 ∈ pageSizes)
    ∧ ((1 ≤ number_input_val 5 1 (total_pages (List.replicate 250 rOax).length 100)
        ∧ number_input_val 5 1 (total_pages (List.replicate 250 rOax).length 100)
            ≤ total_pages (List.replicate 250 rOax).length 100)
      ∧ paginated_df (List.replicate 250 rOax) 100 5
          = pageSliceSpec (List.replicate 250 rOax) 100
              (number_input_val 5 1 (total_pages (List.replicate 250 rOax).length 100)).toNat) :=
  ⟨by decide, paginate_clamped_slice (List.replicate 250 rOax) 100 5 (by decide)⟩

/-- C5: concatenating the pages `1 .. totalPages` for a fixed allowed page
size reconstructs the ResultSet exactly, in order, with no duplicate and
no missing record. -/
theorem pages_reconstruct (R : List Record) (p : Nat) (hp : p ∈ pageSizes) :
    (((List.range (total_pages R.length p).toNat).map
        (fun k : Nat => paginated_df R p ((k : Int) + 1))).flatten) = R := by
  have hp0 : 0 < p := pageSizes_pos hp
  have hform := total_pages_formula R.length p hp0
  set T := max 1 ((R.length + p - 1) / p) with hT
  have htoNat : (total_pages R.length p).toNat = T := by
    rw [hform]
    simp
  rw [htoNat]
  have hpage : ∀ k ∈ List.range T, paginated_df R p ((k : Int) + 1)
      = (R.drop (k * p)).take p := by
    intro k hk
    have hkT : k < T := List.mem_range.mp hk
    have hclamp : number_input_val ((k : Int) + 1) 1 (total_pages R.length p)
        = (k : Int) + 1 := by
      rw [hform]
      unfold number_input_val
      omega
    simp only [paginated_df, hclamp]
    have hst : (((k : Int) + 1) - 1).toNat = k := by omega
    rw [hst]
    exact drop_take_min R (k * p) p
  rw [List.map_congr_left hpage, flatten_chunks]
  apply List.take_of_length_le
  rcases Nat.eq_zero_or_pos R.length with h0 | h0
  · omega
  · have hTq : (R.length + p - 1) / p ≤ T := le_max_right _ _
    have h2 : ((R.length + p - 1) / p) * p ≤ T * p := mul_le_mul_right' hTq p
    have hq := Nat.div_add_mod (R.length + p - 1) p
    have hr : (R.length + p - 1) % p < p := Nat.mod_lt _ hp0
    have hc : ((R.length + p - 1) / p) * p = p * ((R.length + p - 1) / p) :=
      Nat.mul_comm _ _
    generalize hA : ((R.length + p - 1) / p) * p = A at h2 hc
    generalize hB : p * ((R.length + p - 1) / p) = B at hq hc
    generalize hC : (R.length + p - 1) % p = C at hq hr
    generalize hD : T * p = D at h2
    omega

/-- C5 witness at a concrete two-record ResultSet with page size 50. -/
theorem pages_reconstruct_witness :
    (50 ∈ pageSizes)
    ∧ (((List.range (total_pages [rOax, rPue].length 50).toNat).map
        (fun k : Nat => paginated_df [rOax, rPue] 50 ((k : Int) + 1))).flatten) = [rOax, rPue] :=
  ⟨by decide, pages_reconstruct [rOax, rPue] 50 (by decide)⟩

/-- C2 (counterexample): a record whose five display columns are all
missing is kept by the non-empty literal search term `"a"`: `astype(str)`
coerces each missing cell to `"nan"`, and `"nan"` contains `"a"`. -/
theorem missing_row_matches_counterexample :
    ("a" ≠ "") ∧ regexLiteral "a" = true
    ∧ rMissing.name = none ∧ rMissing.nombre_entidad = none
    ∧ rMissing.nombre_municipio = none ∧ rMissing.nombre_localidad = none
    ∧ rMissing.nombre_de_centro_de_trabajo = none
    ∧ rMissing ∈ apply_search [rMissing] "a" := by decide

/-- C2 (amended): for every non-empty search term free of regex
metacharacters, a record is kept by the search iff it is in the table and
at least one of the five display columns, coerced to text with missing
values rendered as `"nan"`, contains the term case-insensitively; the
match never consults latitude or longitude. -/
theorem search_keeps_iff (t : List Record) (term : String) (r : Record)
    (hterm : term ≠ "") (_hlit : regexLiteral term = true) :
    (r ∈ apply_search t term ↔
      r ∈ t ∧ (strContainsCI (pyStr r.name) term = true
        ∨ strContainsCI (pyStr r.nombre_entidad) term = true
        ∨ strContainsCI (pyStr r.nombre_municipio) term = true
        ∨ strContainsCI (pyStr r.nombre_localidad) term = true
        ∨ strContainsCI (pyStr r.nombre_de_centro_de_trabajo) term = true))
    ∧ (∀ la lo : ℚ,
        rowMatches { r with lat := la, lon := lo } term = rowMatches r term) := by
  constructor
  · rw [apply_search, if_neg hterm, List.mem_filter]
    simp [rowMatches, displayStrings]
  · intro la lo
    rfl

/-- C2 witness at accented data: the municipality column of `rAcc`
contains the upper-case accented term `"JUÁREZ"` case-insensitively
(`Á` folds to `á`), so `rAcc` is kept, and the match is independent of
latitude and longitude. -/
theorem search_keeps_iff_witness :
    ("JUÁREZ" ≠ "") ∧ regexLiteral "JUÁREZ" = true
    ∧ ((rAcc ∈ apply_search [rAcc, rPue] "JUÁREZ" ↔
        rAcc ∈ [rAcc, rPue] ∧ (strContainsCI (pyStr rAcc.name) "JUÁREZ" = true
          ∨ strContainsCI (pyStr rAcc.nombre_entidad) "JUÁREZ" = true
          ∨ strContainsCI (pyStr rAcc.nombre_municipio) "JUÁREZ" = true
          ∨ strContainsCI (pyStr rAcc.nombre_localidad) "JUÁREZ" = true
          ∨ strContainsCI (pyStr rAcc.nombre_de_centro_de_trabajo) "JUÁREZ" = true))
      ∧ (∀ la lo : ℚ,
          rowMatches { rAcc with lat := la, lon := lo } "JUÁREZ"
            = rowMatches rAcc "JUÁREZ")) :=
  ⟨by decide, by decide,
    search_keeps_iff [rAcc, rPue] "JUÁREZ" rAcc (by decide) (by decide)⟩

/-- C8: an empty filtered ResultSet is not an error: the map centre is the
fixed default `(23.6345, -102.5528)` rather than a mean, the table has
zero rows for every search term, every requested page is empty, and the
export is exactly the header line. -/
theorem empty_result_defaults (gdf : List Record) (a1 a2 : Option String)
    (h : filtered_for_map gdf a1 a2 = []) :
    centerOf (filtered_for_map gdf a1 a2) = ((23.6345 : ℚ), (-102.5528 : ℚ))
    ∧ (∀ term, table_df gdf a1 a2 term = [])
    ∧ (∀ term p req, paginated_df (table_df gdf a1 a2 term) p req = [])
    ∧ (∀ headers term, csv_filtered headers gdf a1 a2 term = csvLine headers) := by
  have htab : ∀ term, table_df gdf a1 a2 term = [] := by
    intro term
    unfold table_df apply_search
    rw [h]
    by_cases ht : term = "" <;> simp [ht]
  refine ⟨?_, htab, ?_, ?_⟩
  · rw [h]
    rfl
  · intro term p req
    rw [htab term]
    simp [paginated_df]
  · intro headers term
    unfold csv_filtered
    rw [htab term]
    show csvLine headers ++ String.join [] = csvLine headers
    rw [show String.join [] = "" from rfl, String.append_empty]

/-- C8 witness at the empty dataset. -/
theorem empty_result_defaults_witness :
    (filtered_for_map [] none none = [])
    ∧ (centerOf (filtered_for_map [] none none) = ((23.6345 : ℚ), (-102.5528 : ℚ))
      ∧ (∀ term, table_df [] none none term = [])
      ∧ (∀ term p req, paginated_df (table_df [] none none term) p req = [])
      ∧ (∀ headers term, csv_filtered headers [] none none term = csvLine headers)) :=
  ⟨rfl, empty_result_defaults [] none none rfl⟩

/-- C9 (counterexample): `dBlank` holds two records with non-missing state
values, yet the default selection is the empty string, `if admin1:` takes
the falsy branch, and the shown ResultSet is the whole two-state dataset,
not one restricted to a single state. -/
theorem blank_state_counterexample :
    (∃ r ∈ dBlank, r.nombre_entidad.isSome)
    ∧ pyTruthyStr (selectbox_default (departamentos dBlank)) = false
    ∧ filtered_for_map_pre dBlank (selectbox_default (departamentos dBlank)) none = dBlank
    ∧ ∃ r ∈ filtered_for_map_pre dBlank (selectbox_default (departamentos dBlank)) none,
        r.nombre_entidad ≠ selectbox_default (departamentos dBlank) := by decide

/-- C9 (amended): every offered state option is an actual state value of
the dataset (there is no "all" choice), and whenever the selected option
is a non-empty string the selection is truthy — so the unfiltered
full-dataset branch is unreachable — and every record of the hierarchical
result carries the selected state. -/
theorem state_options_restrict (D : List Record) (s : String)
    (hmem : s ∈ departamentos D) (hs : s ≠ "") :
    pyTruthyStr (some s) = true
    ∧ (∃ r ∈ D, r.nombre_entidad = some s)
    ∧ (∀ a2, ∀ r ∈ filtered_for_map_pre D (some s) a2, r.nombre_entidad = some s) := by
  have h1 : pyTruthyStr (some s) = true := by
    simp [pyTruthyStr]
    exact hs
  refine ⟨h1, ?_, ?_⟩
  · unfold departamentos at hmem
    have h2 := mem_sortStrings.mp hmem
    rw [List.mem_dedup] at h2
    obtain ⟨r, hr, he⟩ := List.mem_filterMap.mp h2
    exact ⟨r, hr, he⟩
  · intro a2 r hr
    unfold filtered_for_map_pre at hr
    rw [if_pos h1] at hr
    by_cases h2 : pyTruthyStr a2 = true
    · rw [if_pos h2] at hr
      have h3 := (List.mem_filter.mp hr).2
      simp only [Bool.and_eq_true, beq_iff_eq] at h3
      exact h3.2
    · rw [if_neg h2] at hr
      have h3 := (List.mem_filter.mp hr).2
      simpa using h3

/-- C9 witness at a concrete two-state dataset and the option
`"Oaxaca"`. -/
theorem state_options_restrict_witness :
    ("Oaxaca" ∈ departamentos [rOax, rPue]) ∧ ("Oaxaca" ≠ "")
    ∧ (pyTruthyStr (some "Oaxaca") = true
      ∧ (∃ r ∈ [rOax, rPue], r.nombre_entidad = some "Oaxaca")
      ∧ (∀ a2, ∀ r ∈ filtered_for_map_pre [rOax, rPue] (some "Oaxaca") a2,
          r.nombre_entidad = some "Oaxaca")) :=
  ⟨by decide, by decide,
    state_options_restrict [rOax, rPue] "Oaxaca" (by decide) (by decide)⟩

/-- C3: for every ResultSet and allowed page size, line 314 computes
`max(1, ceil(len / pageSize))`. -/
theorem total_pages_eq_ceil (R : List Record) (p : Nat) (hp : p ∈ pageSizes) :
    total_pages R.length p = ((max 1 ((R.length + p - 1) / p) : Nat) : Int) :=
  total_pages_formula R.length p (pageSizes_pos hp)

/-- C3 witness: the spec scenario `len = 250`, `p = 100` gives 3 pages, and
an empty ResultSet gives 1 page. -/
theorem total_pages_eq_ceil_witness :
    (100 ∈ pageSizes)
    ∧ total_pages (List.replicate 250 rOax).length 100
        = ((max 1 (((List.replicate 250 rOax).length + 100 - 1) / 100) : Nat) : Int)
    ∧ total_pages 250 100 = 3 ∧ total_pages 0 100 = 1 :=
  ⟨by decide, total_pages_eq_ceil (List.replicate 250 rOax) 100 (by decide),
    by decide, by decide⟩

end EscuelasMx
